import Mathlib

/-
Verification development for the orb folder-tunneling tool.

The definitions below are a shallow embedding of the Go sources:
  internal/filesystem (SecureFilesystem: sanitizePath, List, Stat, Read,
    Write, Delete, Rename, Mkdir),
  pkg/protocol (frame type tags, error codes, request/response payloads),
  cmd (the sharer request dispatcher: processRequest, handleShareRequests),
  internal/session (SessionManager.ValidatePasscode),
  internal/crypto (DeriveKey, AEAD.Encrypt nonce/counter logic,
    NoiseHandshake and transport-key derivation over SHA-256).

Go strings are Lean Strings, byte slices are List Nat (each entry a byte
value), int64 is Int, uint64 arithmetic is Nat with explicit reduction
mod 2^64. The operating-system state that the filesystem code works
against (files, directories, symbolic links) is modelled as an explicit
association list from absolute path to entry, and Go's
filepath.EvalSymlinks is modelled as component-wise resolution against
that table. Error values are modelled by their Error() message text,
following Go fmt.Errorf wrapping and os.PathError formatting.
-/

namespace Orb

/-- Decidable equality for Go-style result values. -/
instance {ε α : Type} [DecidableEq ε] [DecidableEq α] :
    DecidableEq (Except ε α) := fun a b =>
  match a, b with
  | .ok x, .ok y =>
      if h : x = y then .isTrue (by rw [h]) else .isFalse (by simp [h])
  | .error x, .error y =>
      if h : x = y then .isTrue (by rw [h]) else .isFalse (by simp [h])
  | .ok _, .error _ => .isFalse (by simp)
  | .error _, .ok _ => .isFalse (by simp)

/-! ## Go path lexicalities (path/filepath, strings) -/

/-- Splits a character list at every slash, keeping empty components,
matching Go strings.Split(s, sep) for a one-character separator. -/
def splitSlashAux : List Char → List Char → List (List Char)
  | [], cur => [cur.reverse]
  | c :: rest, cur =>
      if c = '/' then cur.reverse :: splitSlashAux rest []
      else splitSlashAux rest (c :: cur)

/-- Components of a path string, split on the path separator. -/
def splitSlash (s : String) : List (List Char) :=
  splitSlashAux s.data []

/-- Intercalates components with the path separator. -/
def joinComps : List (List Char) → List Char
  | [] => []
  | [c] => c
  | c :: rest => c ++ '/' :: joinComps rest

/-- Whether a path string is rooted (begins with the separator). -/
def isRooted (s : String) : Bool :=
  match s.data with
  | '/' :: _ => true
  | _ => false

/-- One step of Go filepath.Clean: processes a single component against the
output stack (head of the stack is the most recent component). -/
def cleanStep (rooted : Bool) (stack : List (List Char)) (c : List Char) :
    List (List Char) :=
  if c = [] ∨ c = ['.'] then stack
  else if c = ['.', '.'] then
    match stack with
    | [] => if rooted then [] else [c]
    | top :: rest => if top = ['.', '.'] then c :: stack else rest
  else c :: stack

/-- Go filepath.Clean for slash-separated paths: removes "." components,
collapses ".." up to the root marker, collapses repeated separators. -/
def filepathClean (p : String) : String :=
  let rooted := isRooted p
  let outs := ((splitSlash p).foldl (cleanStep rooted) []).reverse
  if rooted then String.mk ('/' :: joinComps outs)
  else if outs = [] then "."
  else String.mk (joinComps outs)

/-- Go filepath.Join of two elements: concatenation with a separator,
followed by Clean; empty elements are dropped as in Go. -/
def filepathJoin (a b : String) : String :=
  if a = "" then (if b = "" then "" else filepathClean b)
  else if b = "" then filepathClean a
  else filepathClean (a ++ "/" ++ b)

/-- Go filepath.Dir: everything up to and including the final separator,
cleaned. A path with no separator has directory ".". -/
def filepathDir (p : String) : String :=
  let comps := splitSlash p
  if comps.length = 1 then filepathClean ""
  else filepathClean (String.mk (joinComps comps.dropLast ++ ['/']))

/-- Go filepath.Base: last non-empty component; "." for the empty path,
the separator itself for an all-separator path. -/
def filepathBase (p : String) : String :=
  if p = "" then "."
  else
    match ((splitSlash p).filter (· ≠ [])).getLast? with
    | some c => String.mk c
    | none => "/"

/-- Boolean character-list prefix test. -/
def listIsPre : List Char → List Char → Bool
  | [], _ => true
  | _ :: _, [] => false
  | a :: as, b :: bs => a = b && listIsPre as bs

/-- Go strings.HasPrefix(s, pre). -/
def strHasPre (s pre : String) : Bool :=
  listIsPre pre.data s.data

/-- Go strings.TrimPrefix(s, separator): drops one leading slash. -/
def trimLeadingSlash (s : String) : String :=
  match s.data with
  | '/' :: rest => String.mk rest
  | _ => s

/-- Drops the characters of a known leading piece from a string. -/
def strDropPre (s pre : String) : String :=
  String.mk (s.data.drop pre.data.length)

/-! ## Operating-system state: the disk

The filesystem code calls into the OS (os.Stat, os.ReadDir, os.Open,
filepath.EvalSymlinks, ...). The OS state is modelled as a table from
absolute canonical-looking paths to entries; symbolic links carry their
target path. -/

/-- A directory entry: regular file with byte content, directory, or
symbolic link to a target path. -/
inductive Entry where
  | file (content : List Nat)
  | dir
  | symlink (target : String)
deriving DecidableEq

/-- The modelled OS filesystem state. -/
structure Disk where
  entries : List (String × Entry)
deriving DecidableEq

/-- Looks a path up on the disk (Go lstat). -/
def Disk.find (d : Disk) (p : String) : Option Entry :=
  (d.entries.find? (fun e => e.1 == p)).map (·.2)

/-- Resolves a chain of symbolic links at a single path, with fuel
bounding link chains as the OS does. Errors carry Go os.PathError text. -/
def resolveLink (d : Disk) : Nat → String → Except String String
  | 0, p => .error ("too many levels of symbolic links: " ++ p)
  | fuel + 1, p =>
      match d.find p with
      | some (.symlink t) => resolveLink d fuel t
      | some _ => .ok p
      | none => .error ("lstat " ++ p ++ ": no such file or directory")

/-- Appends one component to an absolute directory path. -/
def appendComp (acc : String) (c : List Char) : String :=
  if acc = "/" then String.mk ('/' :: c) else acc ++ String.mk ('/' :: c)

/-- Component-wise symlink resolution along an absolute path. -/
def evalSymlinksAux (d : Disk) : List (List Char) → String → Except String String
  | [], acc => .ok acc
  | c :: rest, acc =>
      match resolveLink d 40 (appendComp acc c) with
      | .ok r => evalSymlinksAux d rest r
      | .error e => .error e

/-- Go filepath.EvalSymlinks on an absolute path: cleans the path, then
resolves every component against the disk, following symbolic links;
errors if any component does not exist. Symlink targets in the model are
absolute paths. -/
def evalSymlinks (d : Disk) (p : String) : Except String String :=
  evalSymlinksAux d ((splitSlash (filepathClean p)).filter (· ≠ [])) "/"

/-! ## SecureFilesystem (internal/filesystem) -/

/-- The sandboxed filesystem handler: canonical absolute export root and
the read-only flag, as in NewSecureFilesystem. -/
structure SecureFilesystem where
  rootPath : String
  readOnly : Bool
deriving DecidableEq

/-- Message of ErrPathTraversal. -/
def errPathTraversal : String := "path traversal attempt detected"

/-- Message of ErrPermissionDenied. -/
def errPermissionDenied : String := "permission denied"

/-- sanitizePath from internal/filesystem: lexically cleans the request
path, strips a leading separator, joins onto the root, resolves symlinks
(falling back to the parent directory plus the original base name when
the target does not exist yet), and finally requires the resolved path to
have the root as a string prefix. -/
def sanitizePath (fs : SecureFilesystem) (d : Disk) (path : String) :
    Except String String :=
  let cleaned := trimLeadingSlash (filepathClean path)
  let fullPath := filepathJoin fs.rootPath cleaned
  let resolvedE : Except String String :=
    match evalSymlinks d fullPath with
    | .ok r => .ok r
    | .error _ =>
        match evalSymlinks d (filepathDir fullPath) with
        | .ok rp => .ok (filepathJoin rp (filepathBase fullPath))
        | .error e => .error ("invalid path: " ++ e)
  match resolvedE with
  | .error e => .error e
  | .ok resolved =>
      if strHasPre resolved fs.rootPath then .ok resolved
      else .error errPathTraversal

/-- File metadata as surfaced to the protocol layer. Mode bits and
modification time are OS metadata that the disk model does not carry, so
only name, size and the directory flag are modelled. -/
structure FileInfo where
  name : String
  size : Int
  isDir : Bool
deriving DecidableEq

/-- FileInfo of a directory entry (lstat view, as os.ReadDir uses). -/
def entryInfo (name : String) : Entry → FileInfo
  | .file c => ⟨name, (c.length : Int), false⟩
  | .dir => ⟨name, 0, true⟩
  | .symlink _ => ⟨name, 0, false⟩

/-- Whether p names a direct child of the directory parent. -/
def isChildOf (parent p : String) : Bool :=
  strHasPre p (parent ++ "/") && !((strDropPre p (parent ++ "/")).data.contains '/')

/-- List from internal/filesystem: sanitize, read the directory, skip
symlink children that are broken or resolve outside the root, and return
FileInfo for the remaining entries. -/
def fsList (fs : SecureFilesystem) (d : Disk) (path : String) :
    Except String (List FileInfo) := do
  let safePath ← sanitizePath fs d path
  match d.find safePath with
  | some .dir =>
      let children := d.entries.filter (fun e => isChildOf safePath e.1)
      .ok (children.filterMap (fun e =>
        match e.2 with
        | .symlink _ =>
            match evalSymlinks d e.1 with
            | .ok target =>
                if strHasPre target fs.rootPath then
                  some (entryInfo (filepathBase e.1) e.2)
                else none
            | .error _ => none
        | ent => some (entryInfo (filepathBase e.1) ent)))
  | some _ =>
      .error ("failed to read directory: readdirent " ++ safePath ++
        ": not a directory")
  | none =>
      .error ("failed to read directory: open " ++ safePath ++
        ": no such file or directory")

/-- Stat from internal/filesystem. -/
def fsStat (fs : SecureFilesystem) (d : Disk) (path : String) :
    Except String FileInfo := do
  let safePath ← sanitizePath fs d path
  match d.find safePath with
  | some ent => .ok (entryInfo (filepathBase safePath) ent)
  | none =>
      .error ("failed to stat file: stat " ++ safePath ++
        ": no such file or directory")

/-- The 10 MiB read cap of internal/filesystem Read. -/
def maxReadSize : Int := 10 * 1024 * 1024

/-- Read from internal/filesystem: sanitize, open read-only, validate the
offset against the file size, clamp non-positive or overlong lengths to
size - offset, cap at 10 MiB, and return the bytes at the offset. -/
def fsRead (fs : SecureFilesystem) (d : Disk) (path : String)
    (offset length : Int) : Except String (List Nat) := do
  let safePath ← sanitizePath fs d path
  match d.find safePath with
  | some (.file content) =>
      let size : Int := (content.length : Int)
      if offset < 0 ∨ offset > size then .error "invalid offset"
      else
        let length := if length ≤ 0 ∨ offset + length > size
          then size - offset else length
        let length := if length > maxReadSize then maxReadSize else length
        .ok ((content.drop offset.toNat).take length.toNat)
  | some .dir =>
      .error ("failed to read file: read " ++ safePath ++ ": is a directory")
  | some (.symlink _) =>
      .error ("failed to open file: open " ++ safePath ++
        ": no such file or directory")
  | none =>
      .error ("failed to open file: open " ++ safePath ++
        ": no such file or directory")

/-- Inserts or replaces a disk entry. -/
def Disk.setEntry (d : Disk) (p : String) (e : Entry) : Disk :=
  if (d.find p).isSome then
    ⟨d.entries.map (fun x => if x.1 == p then (x.1, e) else x)⟩
  else ⟨d.entries ++ [(p, e)]⟩

/-- Write from internal/filesystem: rejected in read-only mode before
anything else; otherwise sanitize, open or create the file, seek to the
offset (sparse gaps read back as zero bytes) and write the data. -/
def fsWrite (fs : SecureFilesystem) (d : Disk) (path : String)
    (offset : Int) (data : List Nat) : Except String Int × Disk :=
  if fs.readOnly then (.error errPermissionDenied, d)
  else
    match sanitizePath fs d path with
    | .error e => (.error e, d)
    | .ok safePath =>
        match d.find safePath with
        | some .dir =>
            (.error ("failed to open file: open " ++ safePath ++
              ": is a directory"), d)
        | found =>
            let current := match found with
              | some (.file c) => c
              | _ => []
            if offset < 0 then
              (.error "failed to seek: an error occurred", d)
            else
              let off := offset.toNat
              let pre := current.take off ++
                List.replicate (off - current.length) 0
              let newContent := pre ++ data ++ current.drop (off + data.length)
              (.ok (data.length : Int), d.setEntry safePath (.file newContent))

/-- Delete from internal/filesystem: rejected in read-only mode; refuses
to remove the export root; otherwise removes the path and everything
under it (os.RemoveAll). -/
def fsDelete (fs : SecureFilesystem) (d : Disk) (path : String) :
    Except String Unit × Disk :=
  if fs.readOnly then (.error errPermissionDenied, d)
  else
    match sanitizePath fs d path with
    | .error e => (.error e, d)
    | .ok safePath =>
        if safePath = fs.rootPath then (.error "cannot delete root directory", d)
        else
          (.ok (), ⟨d.entries.filter
            (fun e => !(e.1 == safePath || strHasPre e.1 (safePath ++ "/")))⟩)

/-- Moves one path (and its subtree) from old to new. -/
def renamePath (oldP newP p : String) : String :=
  if p == oldP then newP
  else if strHasPre p (oldP ++ "/") then newP ++ strDropPre p oldP
  else p

/-- Rename from internal/filesystem: rejected in read-only mode; both
paths sanitized; neither may be the export root; then os.Rename. -/
def fsRename (fs : SecureFilesystem) (d : Disk) (oldPath newPath : String) :
    Except String Unit × Disk :=
  if fs.readOnly then (.error errPermissionDenied, d)
  else
    match sanitizePath fs d oldPath with
    | .error e => (.error e, d)
    | .ok safeOldPath =>
        match sanitizePath fs d newPath with
        | .error e => (.error e, d)
        | .ok safeNewPath =>
            if safeOldPath = fs.rootPath ∨ safeNewPath = fs.rootPath then
              (.error "cannot rename root directory", d)
            else
              match d.find safeOldPath with
              | none =>
                  (.error ("failed to rename: rename " ++ safeOldPath ++ " " ++
                    safeNewPath ++ ": no such file or directory"), d)
              | some _ =>
                  (.ok (), ⟨d.entries.map
                    (fun e => (renamePath safeOldPath safeNewPath e.1, e.2))⟩)

/-- All ancestor paths of an absolute path, outermost first. -/
def ancestorPaths (p : String) : List String :=
  ((splitSlash p).filter (· ≠ [])).foldl
    (fun (acc : List String × String) c =>
      let np := appendComp acc.2 c
      (acc.1 ++ [np], np)) ([], "/") |>.1

/-- os.MkdirAll on the disk model: creates the path and any missing
ancestors as directories. -/
def Disk.mkDirAll (d : Disk) (p : String) : Disk :=
  ⟨d.entries ++ ((ancestorPaths p).filter (fun q => (d.find q).isNone)).map
    (fun q => (q, Entry.dir))⟩

/-- Mkdir from internal/filesystem: rejected in read-only mode; sanitize;
os.MkdirAll (fails when a non-directory is in the way). The permission
argument is mode bits the disk model does not carry. -/
def fsMkdir (fs : SecureFilesystem) (d : Disk) (path : String) (perm : Nat) :
    Except String Unit × Disk :=
  if fs.readOnly then (.error errPermissionDenied, d)
  else
    match sanitizePath fs d path with
    | .error e => (.error e, d)
    | .ok safePath =>
        if (ancestorPaths safePath).any (fun q =>
            match d.find q with
            | some (.file _) => true
            | _ => false) then
          (.error ("failed to create directory: mkdir " ++ safePath ++
            ": not a directory"), d)
        else (.ok (), d.mkDirAll safePath)

/-! ## Wire protocol (pkg/protocol) -/

/-- Frame type tag for handshake init. -/
def FrameTypeHandshake : Nat := 0x01

/-- Frame type tag for handshake response. -/
def FrameTypeHandshakeResp : Nat := 0x02

/-- Frame type tag for list requests. -/
def FrameTypeList : Nat := 0x10

/-- Frame type tag for stat requests. -/
def FrameTypeStat : Nat := 0x11

/-- Frame type tag for read requests. -/
def FrameTypeRead : Nat := 0x12

/-- Frame type tag for write requests. -/
def FrameTypeWrite : Nat := 0x13

/-- Frame type tag for delete requests. -/
def FrameTypeDelete : Nat := 0x14

/-- Frame type tag for rename requests. -/
def FrameTypeRename : Nat := 0x15

/-- Frame type tag for mkdir requests. -/
def FrameTypeMkdir : Nat := 0x16

/-- Frame type tag for success responses. -/
def FrameTypeResponse : Nat := 0x20

/-- Frame type tag for error responses. -/
def FrameTypeError : Nat := 0x21

/-- Frame type tag for pings. -/
def FrameTypePing : Nat := 0x30

/-- Frame type tag for pongs. -/
def FrameTypePong : Nat := 0x31

/-- Error code NotFound. -/
def ErrCodeNotFound : Nat := 1

/-- Error code PermissionDenied. -/
def ErrCodePermission : Nat := 2

/-- Error code InvalidPath. -/
def ErrCodeInvalidPath : Nat := 6

/-- Error code IO. -/
def ErrCodeIO : Nat := 8

/-- Error code Unknown. -/
def ErrCodeUnknown : Nat := 99

/-- Success response payloads of the protocol. -/
inductive ResponseData where
  | listR (files : List FileInfo)
  | statR (info : FileInfo)
  | readR (data : List Nat)
  | writeR (bytesWritten : Int)
deriving DecidableEq

/-- A frame payload at the structured level. The source carries gob-encoded
bytes; here a payload is either a decoded request or response structure, an
empty payload, or bytes that fail gob decoding (malformed). Decoding the
payload of a request frame succeeds exactly when the payload holds the
request structure matching the frame tag. -/
inductive Payload where
  | empty
  | malformed
  | listReq (path : String)
  | statReq (path : String)
  | readReq (path : String) (offset length : Int)
  | writeReq (path : String) (offset : Int) (data : List Nat)
  | deleteReq (path : String)
  | renameReq (oldPath newPath : String)
  | mkdirReq (path : String) (perm : Nat)
  | resp (r : ResponseData)
  | errorResp (code : Nat) (message : String)
deriving DecidableEq

/-- A protocol frame: a type tag and a payload. -/
structure Frame where
  type : Nat
  payload : Payload
deriving DecidableEq

/-! ## Sharer request dispatcher (cmd share) -/

/-- Message carried by an error frame when gob payload decoding fails. -/
def gobDecodeMsg : String := "gob: decoding error"

/-- errorFrame from the dispatcher: an ErrorResponse frame. -/
def errorFrame (code : Nat) (message : String) : Frame :=
  ⟨FrameTypeError, .errorResp code message⟩

/-- responseFrame from the dispatcher: a success response frame. -/
def responseFrame (r : ResponseData) : Frame :=
  ⟨FrameTypeResponse, .resp r⟩

/-- processRequest from the sharer: decodes the payload by tag, invokes the
filesystem operation, and encodes a typed response or an error frame with
the operation-specific error code used by the source (List and Read map to
IO, Stat to NotFound, the mutating operations to PermissionDenied, decode
failures and unhandled tags to Unknown). Returns the reply frame and the
updated OS state. -/
def processRequest (fs : SecureFilesystem) (d : Disk) (frame : Frame) :
    Frame × Disk :=
  if frame.type = FrameTypePing then (⟨FrameTypePong, .empty⟩, d)
  else if frame.type = FrameTypeList then
    match frame.payload with
    | .listReq path =>
        match fsList fs d path with
        | .error e => (errorFrame ErrCodeIO e, d)
        | .ok files => (responseFrame (.listR files), d)
    | _ => (errorFrame ErrCodeUnknown gobDecodeMsg, d)
  else if frame.type = FrameTypeStat then
    match frame.payload with
    | .statReq path =>
        match fsStat fs d path with
        | .error e => (errorFrame ErrCodeNotFound e, d)
        | .ok info => (responseFrame (.statR info), d)
    | _ => (errorFrame ErrCodeUnknown gobDecodeMsg, d)
  else if frame.type = FrameTypeRead then
    match frame.payload with
    | .readReq path offset length =>
        match fsRead fs d path offset length with
        | .error e => (errorFrame ErrCodeIO e, d)
        | .ok data => (responseFrame (.readR data), d)
    | _ => (errorFrame ErrCodeUnknown gobDecodeMsg, d)
  else if frame.type = FrameTypeWrite then
    match frame.payload with
    | .writeReq path offset data =>
        match fsWrite fs d path offset data with
        | (.error e, d') => (errorFrame ErrCodePermission e, d')
        | (.ok n, d') => (responseFrame (.writeR n), d')
    | _ => (errorFrame ErrCodeUnknown gobDecodeMsg, d)
  else if frame.type = FrameTypeDelete then
    match frame.payload with
    | .deleteReq path =>
        match fsDelete fs d path with
        | (.error e, d') => (errorFrame ErrCodePermission e, d')
        | (.ok _, d') => (responseFrame (.writeR 0), d')
    | _ => (errorFrame ErrCodeUnknown gobDecodeMsg, d)
  else if frame.type = FrameTypeRename then
    match frame.payload with
    | .renameReq oldPath newPath =>
        match fsRename fs d oldPath newPath with
        | (.error e, d') => (errorFrame ErrCodePermission e, d')
        | (.ok _, d') => (responseFrame (.writeR 0), d')
    | _ => (errorFrame ErrCodeUnknown gobDecodeMsg, d)
  else if frame.type = FrameTypeMkdir then
    match frame.payload with
    | .mkdirReq path perm =>
        match fsMkdir fs d path perm with
        | (.error e, d') => (errorFrame ErrCodePermission e, d')
        | (.ok _, d') => (responseFrame (.writeR 0), d')
    | _ => (errorFrame ErrCodeUnknown gobDecodeMsg, d)
  else (errorFrame ErrCodeUnknown "unknown request type", d)

/-- One observable outcome of Tunnel.ReceiveFrame in the dispatcher loop:
either a successfully received and decrypted frame, or a receive error
(EOF, decrypt failure, unknown frame tag), tagged with whether
Tunnel.IsClosed() reports the tunnel as closed at that point. -/
inductive RecvEvent where
  | frame (f : Frame)
  | recvError (tunnelClosed : Bool)
deriving DecidableEq

/-- handleShareRequests from the sharer, run against a finite trace of
receive outcomes: a clean return when a receive error coincides with a
closed tunnel; receive errors on an open tunnel are logged and the loop
continues; every received frame is answered via processRequest. Returns
the replies sent, the final OS state, and whether the loop returned
(true) or was still running when the trace ended (false). -/
def runDispatcher (fs : SecureFilesystem) :
    Disk → List RecvEvent → List Frame × Disk × Bool
  | d, [] => ([], d, false)
  | d, .recvError closed :: rest =>
      if closed then ([], d, true)
      else runDispatcher fs d rest
  | d, .frame f :: rest =>
      let (reply, d') := processRequest fs d f
      let (rs, d'', t) := runDispatcher fs d' rest
      (reply :: rs, d'', t)

/-! ## Session manager (internal/session)

Go time.Time values are modelled as Nat nanosecond timestamps; the
current time is an explicit argument. The 100 ms response-time padding
and the lock around the map are real-time and concurrency aspects outside
the state model. -/

/-- SessionTimeout: 24 hours in nanoseconds. -/
def sessionTimeoutNs : Nat := 24 * 60 * 60 * 1000000000

/-- MaxFailedAttempts before lockout. -/
def maxFailedAttempts : Nat := 5

/-- Generic authentication failure message. -/
def errAuthFailed : String := "authentication failed"

/-- Lockout message. -/
def errSessionLocked : String := "session locked due to too many failed attempts"

/-- Expiry message. -/
def errSessionExpired : String := "session expired"

/-- A session record of the relay-side session manager. -/
structure Session where
  id : String
  passcode : String
  created : Nat
  lastActivity : Nat
  failedAttempts : Nat
  locked : Bool
  sharedPath : String
  active : Bool
deriving DecidableEq

/-- The session map held by the SessionManager. -/
abbrev SessionMap := List (String × Session)

/-- Map lookup by session id. -/
def smFind : SessionMap → String → Option Session
  | [], _ => none
  | e :: rest, sessionID =>
      if e.1 = sessionID then some e.2 else smFind rest sessionID

/-- Replaces the record stored under an id (Go mutates through the map's
pointer). -/
def smSet : SessionMap → String → Session → SessionMap
  | [], _, _ => []
  | e :: rest, sessionID, s =>
      if e.1 = sessionID then (e.1, s) :: smSet rest sessionID s
      else e :: smSet rest sessionID s

/-- Removes an id from the map (Go delete). -/
def smErase : SessionMap → String → SessionMap
  | [], _ => []
  | e :: rest, sessionID =>
      if e.1 = sessionID then smErase rest sessionID
      else e :: smErase rest sessionID

/-- constantTimeStringCompare from internal/session: length check, then a
fold of byte xors. -/
def constantTimeStringCompare (a b : String) : Bool :=
  if a.length ≠ b.length then false
  else ((a.data.zip b.data).foldl
    (fun r p => r ||| (p.1.toNat ^^^ p.2.toNat)) 0) == 0

/-- ValidatePasscode from internal/session: unknown id gives the generic
failure; a locked session is reported locked before anything else; an
expired session is reported expired and deleted; a wrong passcode
increments the attempt counter and latches the locked flag at the cap; a
correct passcode resets the counter and refreshes last activity. Returns
the result and the updated session map. -/
def validatePasscode (m : SessionMap) (now : Nat)
    (sessionID passcode : String) : Except String Unit × SessionMap :=
  match smFind m sessionID with
  | none => (.error errAuthFailed, m)
  | some s =>
      if s.locked then (.error errSessionLocked, m)
      else if now - s.created > sessionTimeoutNs then
        (.error errSessionExpired, smErase m sessionID)
      else if constantTimeStringCompare s.passcode passcode = false then
        let s' := { s with failedAttempts := s.failedAttempts + 1 }
        if s'.failedAttempts ≥ maxFailedAttempts then
          (.error errSessionLocked, smSet m sessionID { s' with locked := true })
        else (.error errAuthFailed, smSet m sessionID s')
      else
        (.ok (), smSet m sessionID
          { s with failedAttempts := 0, lastActivity := now })

/-! ## AEAD sender (internal/crypto, crypto.go)

The XChaCha20-Poly1305 Seal call is a library primitive; it is a
parameter of the model. Everything the source computes itself — the
64-bit counter held in the AEAD struct and the 24-byte nonce layout —
is modelled concretely. -/

/-- Modulus of the 64-bit send counter. -/
def u64 : Nat := 18446744073709551616

/-- Big-endian 8-byte encoding, as binary.BigEndian.PutUint64 writes it. -/
def be64bytes (n : Nat) : List Nat :=
  [n >>> 56 % 256, n >>> 48 % 256, n >>> 40 % 256, n >>> 32 % 256,
   n >>> 24 % 256, n >>> 16 % 256, n >>> 8 % 256, n % 256]

/-- Big-endian byte-list decoding. -/
def beDecode (bs : List Nat) : Nat :=
  bs.foldl (fun acc b => acc * 256 + b) 0

/-- The AEAD cipher state of crypto.go: the key and the 64-bit counter
(named nonce in the source). -/
structure AEAD where
  key : List Nat
  nonce : Nat
deriving DecidableEq

/-- Encrypt from crypto.go: increments the counter (uint64 arithmetic),
builds the 24-byte nonce from 16 fresh CSPRNG bytes followed by the
big-endian counter, and returns nonce || seal-output as the record. The
CSPRNG output and the cipher Seal function are supplied by the
environment. -/
def aeadEncrypt (sealFn : List Nat → List Nat → List Nat) (a : AEAD)
    (rand16 plaintext : List Nat) : List Nat × AEAD :=
  let ctr := (a.nonce + 1) % u64
  let nonce := rand16 ++ be64bytes ctr
  (nonce ++ sealFn nonce plaintext, { a with nonce := ctr })

/-- A run of successive Encrypt calls over a list of (CSPRNG bytes,
plaintext) inputs. -/
def aeadEncryptMany (sealFn : List Nat → List Nat → List Nat) :
    AEAD → List (List Nat × List Nat) → List (List Nat) × AEAD
  | a, [] => ([], a)
  | a, (r, p) :: rest =>
      let (rec1, a') := aeadEncrypt sealFn a r p
      let (recs, a'') := aeadEncryptMany sealFn a' rest
      (rec1 :: recs, a'')

/-! ## X25519 Diffie-Hellman (internal/crypto)

curve25519.ScalarBaseMult and curve25519.X25519 are library primitives;
the model captures their algebra as exponentiation in the prime field of
Curve25519: a public key is the generator raised to the private scalar,
and the shared secret raises the peer public key to the own scalar. The
all-zero shared-secret rejection (low-order-point guard) of
ComputeSharedSecret is kept. -/

/-- The Curve25519 field prime 2^255 - 19. -/
def dhP : Nat := 2 ^ 255 - 19

/-- The conventional base point coordinate. -/
def dhG : Nat := 9

/-- GenerateX25519KeyPair public-key computation: base raised to the
private scalar. -/
def scalarBaseMult (priv : Nat) : Nat := dhG ^ priv % dhP

/-- X25519 scalar multiplication of a peer public key. -/
def scalarMult (priv pub : Nat) : Nat := pub ^ priv % dhP

/-- ComputeSharedSecret from crypto.go: X25519 followed by the
constant-time all-zero check; a zero shared secret is rejected. -/
def computeSharedSecret (priv pub : Nat) : Option Nat :=
  let s := scalarMult priv pub
  if s = 0 then none else some s

/-! ## SHA-256 (crypto/sha256)

A complete executable SHA-256 over byte lists, used by the handshake
transcript and the transport-key derivation. -/

/-- Word modulus 2^32. -/
def w32 : Nat := 4294967296

/-- 32-bit right rotation. -/
def rotr32 (x n : Nat) : Nat := ((x >>> n) ||| (x <<< (32 - n))) % w32

/-- SHA-256 Ch function. -/
def chFn (e f g : Nat) : Nat := (e &&& f) ^^^ (((w32 - 1) ^^^ e) &&& g)

/-- SHA-256 Maj function. -/
def majFn (a b c : Nat) : Nat := (a &&& b) ^^^ (a &&& c) ^^^ (b &&& c)

/-- SHA-256 big sigma 0. -/
def bigSigma0 (x : Nat) : Nat := rotr32 x 2 ^^^ rotr32 x 13 ^^^ rotr32 x 22

/-- SHA-256 big sigma 1. -/
def bigSigma1 (x : Nat) : Nat := rotr32 x 6 ^^^ rotr32 x 11 ^^^ rotr32 x 25

/-- SHA-256 small sigma 0. -/
def smallSigma0 (x : Nat) : Nat := rotr32 x 7 ^^^ rotr32 x 18 ^^^ (x >>> 3)

/-- SHA-256 small sigma 1. -/
def smallSigma1 (x : Nat) : Nat := rotr32 x 17 ^^^ rotr32 x 19 ^^^ (x >>> 10)

/-- The 64 SHA-256 round constants. -/
def shaK : List Nat :=
  [1116352408, 1899447441, 3049323471, 3921009573, 961987163,
   1508970993, 2453635748, 2870763221, 3624381080, 310598401,
   607225278, 1426881987, 1925078388, 2162078206, 2614888103,
   3248222580, 3835390401, 4022224774, 264347078, 604807628,
   770255983, 1249150122, 1555081692, 1996064986, 2554220882,
   2821834349, 2952996808, 3210313671, 3336571891, 3584528711,
   113926993, 338241895, 666307205, 773529912, 1294757372,
   1396182291, 1695183700, 1986661051, 2177026350, 2456956037,
   2730485921, 2820302411, 3259730800, 3345764771, 3516065817,
   3600352804, 4094571909, 275423344, 430227734, 506948616,
   659060556, 883997877, 958139571, 1322822218, 1537002063,
   1747873779, 1955562222, 2024104815, 2227730452, 2361852424,
   2428436474, 2756734187, 3204031479, 3329325298]

/-- The initial SHA-256 hash state. -/
def shaInitH : List Nat :=
  [1779033703, 3144134277, 1013904242, 2773480762, 1359893119,
   2600822924, 528734635, 1541459225]

/-- Big-endian 32-bit words from bytes (groups of four). -/
def bytesToWordsBE : List Nat → List Nat
  | b0 :: b1 :: b2 :: b3 :: rest =>
      (((b0 % 256) <<< 24) + ((b1 % 256) <<< 16) + ((b2 % 256) <<< 8) +
        (b3 % 256)) :: bytesToWordsBE rest
  | _ => []

/-- Extends the 16 message words to the 64-entry message schedule. -/
def extendW (w : List Nat) : List Nat :=
  (List.range 48).foldl (fun acc _ =>
    let i := acc.length
    acc ++ [(smallSigma1 (acc.getD (i - 2) 0) + acc.getD (i - 7) 0 +
      smallSigma0 (acc.getD (i - 15) 0) + acc.getD (i - 16) 0) % w32]) w

/-- One SHA-256 compression round. -/
def compressStep (st : List Nat) (wk : Nat × Nat) : List Nat :=
  match st with
  | [a, b, c, d, e, f, g, h] =>
      let t1 := (h + bigSigma1 e + chFn e f g + wk.2 + wk.1) % w32
      let t2 := (bigSigma0 a + majFn a b c) % w32
      [(t1 + t2) % w32, a, b, c, (d + t1) % w32, e, f, g]
  | st => st

/-- Compresses one padded 64-byte block into the hash state. -/
def compressBlock (h : List Nat) (block : List Nat) : List Nat :=
  let w := extendW (bytesToWordsBE block)
  let st := (w.zip shaK).foldl compressStep h
  (h.zip st).map (fun p => (p.1 + p.2) % w32)

/-- Splits a byte list into 64-byte chunks (fuel on the length). -/
def chunks64Aux : Nat → List Nat → List (List Nat)
  | 0, _ => []
  | _, [] => []
  | fuel + 1, l => l.take 64 :: chunks64Aux fuel (l.drop 64)

/-- Splits a byte list into 64-byte chunks. -/
def chunks64 (l : List Nat) : List (List Nat) := chunks64Aux l.length l

/-- SHA-256 message padding: 0x80, zeros to 56 mod 64, 8-byte bit count. -/
def shaPad (msg : List Nat) : List Nat :=
  let l := msg.length
  let padLen := (64 + 56 - ((l + 1) % 64)) % 64
  msg ++ 0x80 :: List.replicate padLen 0 ++ be64bytes (8 * l)

/-- Big-endian bytes of the final hash words. -/
def wordsToBytesBE (ws : List Nat) : List Nat :=
  ws.foldr (fun w acc =>
    (w >>> 24 % 256) :: (w >>> 16 % 256) :: (w >>> 8 % 256) :: (w % 256) :: acc) []

/-- SHA-256 of a byte list. -/
def sha256 (msg : List Nat) : List Nat :=
  wordsToBytesBE ((chunks64 (shaPad msg)).foldl compressBlock shaInitH)

/-! ## Noise-like handshake (internal/crypto, noise.go)

Ephemeral public keys travel on the wire as 32-byte strings; they are
modelled here by their field value with a fixed byte encoding. The
AEAD-encrypted auth blob carried next to the public key in each message
holds a fresh random challenge and a transcript-bound proof; it is
authenticated data that never enters the transcript hash or the key
derivation, so the happy-path message processing below carries only the
public key. -/

/-- Fixed 32-byte little-endian encoding of a field value, matching the
wire representation of an X25519 public key or shared secret. -/
def encode32le (n : Nat) : List Nat :=
  (List.range 32).map (fun i => n >>> (8 * i) % 256)

/-- Bytes of an ASCII label string. -/
def strBytes (s : String) : List Nat := s.data.map Char.toNat

/-- The initiator-to-responder key label. -/
def i2rLabel : List Nat := strBytes "initiator_to_responder"

/-- The responder-to-initiator key label. -/
def r2iLabel : List Nat := strBytes "responder_to_initiator"

/-- NoiseHandshake state from noise.go. -/
structure NoiseHandshake where
  localPriv : Nat
  localPub : Nat
  remoteEphemeral : Option Nat
  presharedKey : List Nat
  initiator : Bool
  handshakeHash : List Nat
deriving DecidableEq

/-- updateHash from noise.go: transcript chaining
hash := SHA256(hash || data). -/
def updateHash (nh : NoiseHandshake) (data : List Nat) : NoiseHandshake :=
  { nh with handshakeHash := sha256 (nh.handshakeHash ++ data) }

/-- NewNoiseHandshake: requires a 32-byte preshared key, generates the
ephemeral pair from the supplied private scalar, and seeds the transcript
with the preshared key. -/
def newNoiseHandshake (presharedKey : List Nat) (initiator : Bool)
    (ephPriv : Nat) : Option NoiseHandshake :=
  if presharedKey.length = 32 then
    some (updateHash
      { localPriv := ephPriv, localPub := scalarBaseMult ephPriv,
        remoteEphemeral := none, presharedKey := presharedKey,
        initiator := initiator, handshakeHash := [] } presharedKey)
  else none

/-- CreateInitiatorMessage: initiator only; extends the transcript with
the own ephemeral public key and emits it. -/
def createInitiatorMessage (nh : NoiseHandshake) :
    Option (Nat × NoiseHandshake) :=
  if nh.initiator = false then none
  else
    let nh := updateHash nh (encode32le nh.localPub)
    some (nh.localPub, nh)

/-- ProcessInitiatorMessage (responder, happy path): records the remote
ephemeral and extends the transcript with it. -/
def processInitiatorMessage (nh : NoiseHandshake) (remotePub : Nat) :
    Option NoiseHandshake :=
  if nh.initiator then none
  else some (updateHash { nh with remoteEphemeral := some remotePub }
    (encode32le remotePub))

/-- CreateResponderMessage: responder only, after the initiator message;
extends the transcript with the own ephemeral public key and emits it. -/
def createResponderMessage (nh : NoiseHandshake) :
    Option (Nat × NoiseHandshake) :=
  if nh.initiator then none
  else
    match nh.remoteEphemeral with
    | none => none
    | some _ =>
        let nh := updateHash nh (encode32le nh.localPub)
        some (nh.localPub, nh)

/-- ProcessResponderMessage (initiator, happy path): records the remote
ephemeral and extends the transcript with it. -/
def processResponderMessage (nh : NoiseHandshake) (remotePub : Nat) :
    Option NoiseHandshake :=
  if nh.initiator = false then none
  else some (updateHash { nh with remoteEphemeral := some remotePub }
    (encode32le remotePub))

/-- deriveKey from noise.go:
SHA256(transcript || secret || info) truncated to 32 bytes. -/
def deriveKey (nh : NoiseHandshake) (secret info : List Nat) : List Nat :=
  (sha256 (nh.handshakeHash ++ secret ++ info)).take 32

/-- DeriveTransportKeys from noise.go: needs the remote ephemeral and a
non-zero shared secret; the initiator sends with the initiator-to-
responder key and receives with the responder-to-initiator key, the
responder the opposite. -/
def deriveTransportKeys (nh : NoiseHandshake) :
    Option (List Nat × List Nat) :=
  match nh.remoteEphemeral with
  | none => none
  | some rp =>
      match computeSharedSecret nh.localPriv rp with
      | none => none
      | some s =>
          let sb := encode32le s
          if nh.initiator then
            some (deriveKey nh sb i2rLabel, deriveKey nh sb r2iLabel)
          else
            some (deriveKey nh sb r2iLabel, deriveKey nh sb i2rLabel)

/-- The full two-message exchange over a reliable pipe: both sides are
created with the same preshared key, the responder processes the
initiator message, the initiator processes the responder message.
Returns the two final handshake states. -/
def handshakeExchange (presharedKey : List Nat) (privI privR : Nat) :
    Option (NoiseHandshake × NoiseHandshake) := do
  let i0 ← newNoiseHandshake presharedKey true privI
  let r0 ← newNoiseHandshake presharedKey false privR
  let (pubI, i1) ← createInitiatorMessage i0
  let r1 ← processInitiatorMessage r0 pubI
  let (pubR, r2) ← createResponderMessage r1
  let i2 ← processResponderMessage i1 pubR
  some (i2, r2)

/-! ## Concrete scenarios used by the claim analyses -/

/-- Export root of the symlink-escape scenario. -/
def escFs : SecureFilesystem := ⟨"/data/share", false⟩

/-- OS state of the symlink-escape scenario: next to the export root
/data/share lies a sibling directory /data/shareX holding a secret file,
and inside the export root the symbolic link evil points at that
sibling. The sibling path extends the root path without an intervening
separator. -/
def escDisk : Disk :=
  ⟨[("/data", .dir), ("/data/share", .dir), ("/data/shareX", .dir),
    ("/data/shareX/secret", .file [7, 7, 7]),
    ("/data/share/evil", .symlink "/data/shareX")]⟩

/-- Export root of the plain sharing scenario. -/
def expFs : SecureFilesystem := ⟨"/srv/export", false⟩

/-- OS state of the plain sharing scenario: the export root contains one
two-byte file hello.txt. -/
def expDisk : Disk :=
  ⟨[("/srv", .dir), ("/srv/export", .dir),
    ("/srv/export/hello.txt", .file [104, 105])]⟩

/-! ## Claim analyses -/

/-- C1: the claim states that the path sanitization proceeds only if the
canonical result equals the export root or begins with the export root
followed by a path separator. The code checks only a plain string prefix:
on a disk where a symlink inside the root points at the sibling directory
/data/shareX of the root /data/share, sanitizePath accepts the resolved
path /data/shareX/secret although it neither equals the root nor extends
it with a separator, and Read then returns the content of the file
outside the export root. -/
theorem C1_sanitize_admits_sibling_escape :
    sanitizePath escFs escDisk "/evil/secret" = .ok "/data/shareX/secret"
    ∧ ¬("/data/shareX/secret" = escFs.rootPath
        ∨ strHasPre "/data/shareX/secret" (escFs.rootPath ++ "/") = true)
    ∧ fsRead escFs escDisk "/evil/secret" 0 100 = .ok [7, 7, 7] := by
  decide

/-- C2: the claim states that error messages sent in ErrorResponse frames
never contain the export root path text. A read request for a file that
does not exist produces an error frame whose message embeds the full
resolved path, export root included, coming from the wrapped Go
os.PathError of the failed open. -/
theorem C2_error_message_contains_export_root :
    expFs.rootPath = "/srv/export"
    ∧ (processRequest expFs expDisk ⟨FrameTypeRead, .readReq "/nope" 0 10⟩).1
      = errorFrame ErrCodeIO
        ("failed to open file: open " ++ expFs.rootPath ++
          "/nope: no such file or directory") := by
  decide

/-- C10 counterexample: the claim states that a read request escaping the
export root is answered with an ErrorResponse carrying the InvalidPath
code; the dispatcher maps every Read failure to the IO code instead. -/
theorem C10_read_error_carries_io_code :
    (processRequest expFs expDisk
        ⟨FrameTypeRead, .readReq "/../etc/passwd" 0 100⟩).1
      = errorFrame ErrCodeIO
          "invalid path: lstat /srv/export/etc: no such file or directory"
    ∧ ErrCodeIO ≠ ErrCodeInvalidPath := by
  decide

/-- C10 (amended): a read request whose path escapes the export root is
answered with an ErrorResponse carrying the IO code, the dispatcher loop
stays alive, and the next valid request succeeds. -/
theorem C10_traversal_read_io_error_tunnel_stays_open :
    runDispatcher expFs expDisk
      [.frame ⟨FrameTypeRead, .readReq "/../etc/passwd" 0 100⟩,
       .frame ⟨FrameTypeRead, .readReq "/hello.txt" 0 2⟩]
    = ([errorFrame ErrCodeIO
          "invalid path: lstat /srv/export/etc: no such file or directory",
        responseFrame (.readR [104, 105])], expDisk, false) := by
  decide

/-- C9 counterexample: the claim states that tunnel-level errors (EOF,
decrypt failure) terminate the dispatcher loop and close the tunnel. On a
receive error with the tunnel still open, handleShareRequests logs and
continues: a ping arriving after the failed receive is still answered
with a pong and the loop has not returned. -/
theorem C9_recv_error_does_not_stop_loop :
    runDispatcher expFs expDisk
      [.recvError false, .frame ⟨FrameTypePing, .empty⟩]
    = ([⟨FrameTypePong, .empty⟩], expDisk, false) := by
  decide

/-- C9 (amended): a frame whose payload fails to decode, or whose tag is
valid but not a request the dispatcher handles, produces an error frame
and the loop continues with the next frame; a receive error produces no
error frame, and the loop returns only when the tunnel has been closed,
otherwise it continues. -/
theorem C9_dispatcher_loop_continuation (fs : SecureFilesystem) (d : Disk)
    (rest : List RecvEvent) (pay : Payload) :
    runDispatcher fs d (.frame ⟨FrameTypeList, .malformed⟩ :: rest)
      = (errorFrame ErrCodeUnknown gobDecodeMsg :: (runDispatcher fs d rest).1,
         (runDispatcher fs d rest).2)
    ∧ runDispatcher fs d (.frame ⟨FrameTypeResponse, pay⟩ :: rest)
      = (errorFrame ErrCodeUnknown "unknown request type"
           :: (runDispatcher fs d rest).1,
         (runDispatcher fs d rest).2)
    ∧ runDispatcher fs d (.recvError false :: rest) = runDispatcher fs d rest
    ∧ runDispatcher fs d (.recvError true :: rest) = ([], d, true) := by
  refine ⟨?_, ?_, ?_, ?_⟩
  · simp [runDispatcher, processRequest, FrameTypePing, FrameTypeList]
  · simp [runDispatcher, processRequest, FrameTypeResponse, FrameTypePing,
      FrameTypeList, FrameTypeStat, FrameTypeRead, FrameTypeWrite,
      FrameTypeDelete, FrameTypeRename, FrameTypeMkdir]
  · simp [runDispatcher]
  · simp [runDispatcher]

/-- C6: with the read-only flag set, write, delete, rename and mkdir are
rejected with the permission-denied error before touching the disk, and
list, stat and read coincide with the read-write behaviour. -/
theorem C6_readonly_policy (root p oldPath newPath : String) (d : Disk)
    (off len : Int) (data : List Nat) (perm : Nat) :
    fsWrite ⟨root, true⟩ d p off data = (.error errPermissionDenied, d)
    ∧ fsDelete ⟨root, true⟩ d p = (.error errPermissionDenied, d)
    ∧ fsRename ⟨root, true⟩ d oldPath newPath = (.error errPermissionDenied, d)
    ∧ fsMkdir ⟨root, true⟩ d p perm = (.error errPermissionDenied, d)
    ∧ fsList ⟨root, true⟩ d p = fsList ⟨root, false⟩ d p
    ∧ fsStat ⟨root, true⟩ d p = fsStat ⟨root, false⟩ d p
    ∧ fsRead ⟨root, true⟩ d p off len = fsRead ⟨root, false⟩ d p off len :=
  ⟨rfl, rfl, rfl, rfl, rfl, rfl, rfl⟩

/-! ## Session manager lemmas and claims -/

/-- Replacing the record stored under an id is visible to a subsequent
lookup of that id, provided the id is present. -/
theorem smFind_smSet (m : SessionMap) (sessionID : String) (s s0 : Session)
    (h : smFind m sessionID = some s0) :
    smFind (smSet m sessionID s) sessionID = some s := by
  induction m with
  | nil => simp [smFind] at h
  | cons e rest ih =>
      by_cases he : e.1 = sessionID
      · simp [smFind, smSet, he]
      · simp only [smFind, smSet, if_neg he] at h ⊢
        exact ih h

/-- Erasing an id removes it from subsequent lookups. -/
theorem smFind_smErase (m : SessionMap) (sessionID : String) :
    smFind (smErase m sessionID) sessionID = none := by
  induction m with
  | nil => simp [smFind, smErase]
  | cons e rest ih =>
      by_cases he : e.1 = sessionID
      · simpa [smFind, smErase, he] using ih
      · simp only [smFind, smErase, if_neg he]
        exact ih

/-- The session stored for the expired-session scenario. -/
def expiredSession : Session :=
  ⟨"ABC123", "123-456", 0, 0, 0, false, "/srv/export", true⟩

/-- A session map holding only the expired-session record. -/
def expiredMap : SessionMap := [("ABC123", expiredSession)]

/-- C3 counterexample: the claim states that an unknown session id, an
expired session and a wrong passcode all produce one and the same generic
authentication-failed signal. Validating an expired session — even with
the correct passcode — returns the distinct session-expired message
instead of the generic one. -/
theorem C3_expired_session_error_is_distinct :
    (validatePasscode expiredMap (sessionTimeoutNs + 1) "ABC123" "123-456").1
      = .error errSessionExpired
    ∧ errSessionExpired ≠ errAuthFailed := by
  decide

/-- C3 (amended): an unknown session id and a wrong passcode below the
lockout cap produce the same generic authentication-failed signal; an
expired session is surfaced distinctly as session-expired and removed;
the locked outcome is surfaced distinctly (also when the failed attempt
reaches the cap); a wrong passcode increments the failed-attempts
counter. -/
theorem C3_generic_failure_signals (m : SessionMap) (now : Nat)
    (sessionID passcode : String) :
    (smFind m sessionID = none →
      validatePasscode m now sessionID passcode = (.error errAuthFailed, m))
    ∧ (∀ s, smFind m sessionID = some s → s.locked = false →
        now - s.created ≤ sessionTimeoutNs →
        constantTimeStringCompare s.passcode passcode = false →
        (validatePasscode m now sessionID passcode).1
            = .error (if s.failedAttempts + 1 ≥ maxFailedAttempts
                then errSessionLocked else errAuthFailed)
          ∧ smFind (validatePasscode m now sessionID passcode).2 sessionID
            = some (if s.failedAttempts + 1 ≥ maxFailedAttempts
                then { s with failedAttempts := s.failedAttempts + 1, locked := true }
                else { s with failedAttempts := s.failedAttempts + 1 }))
    ∧ (∀ s, smFind m sessionID = some s → s.locked = false →
        now - s.created > sessionTimeoutNs →
        validatePasscode m now sessionID passcode
          = (.error errSessionExpired, smErase m sessionID)) := by
  refine ⟨?_, ?_, ?_⟩
  · intro h
    simp [validatePasscode, h]
  · intro s hs hl hexp hc
    rw [validatePasscode, hs]
    simp only [hl, if_neg (by omega : ¬ now - s.created > sessionTimeoutNs),
      hc, Bool.false_eq_true, if_neg, if_pos rfl]
    by_cases hcap : s.failedAttempts + 1 ≥ maxFailedAttempts
    · simp only [if_pos hcap]
      exact ⟨rfl, smFind_smSet m sessionID _ s hs⟩
    · simp only [if_neg hcap]
      exact ⟨rfl, smFind_smSet m sessionID _ s hs⟩
  · intro s hs hl hexp
    rw [validatePasscode, hs]
    simp [hl, if_pos hexp]

/-- C3 witness scenario: a live session with one wrong attempt. -/
def liveSession : Session :=
  ⟨"K7Q2AA", "493-771", 0, 0, 0, false, "/srv/export", true⟩

/-- A session map holding only the live-session record. -/
def liveMap : SessionMap := [("K7Q2AA", liveSession)]

/-- C3 witness: at a concrete live session, a wrong passcode yields the
generic authentication-failed signal and the stored attempt counter
becomes one. -/
theorem C3_generic_failure_signals_witness :
    (validatePasscode liveMap 5 "K7Q2AA" "000-000").1 = .error errAuthFailed
    ∧ smFind (validatePasscode liveMap 5 "K7Q2AA" "000-000").2 "K7Q2AA"
      = some { liveSession with failedAttempts := 1 } := by
  have h := (C3_generic_failure_signals liveMap 5 "K7Q2AA" "000-000").2.1
    liveSession (by decide) (by decide) (by decide) (by decide)
  simpa using h

/-- C4: the failed-attempts counter never decreases on a failed
validation; a successful validation resets it to zero and refreshes the
last-activity timestamp; a wrong attempt that reaches the cap stores the
session with the locked flag latched; and a locked session rejects every
subsequent attempt — the correct passcode included — as locked, leaving
the map unchanged. -/
theorem C4_attempt_counter_monotone_and_lockout_latches
    (m : SessionMap) (now : Nat) (sessionID passcode : String) (s : Session)
    (hs : smFind m sessionID = some s) :
    (s.locked = true →
      validatePasscode m now sessionID passcode = (.error errSessionLocked, m))
    ∧ ((validatePasscode m now sessionID passcode).1 = .ok () →
        smFind (validatePasscode m now sessionID passcode).2 sessionID
          = some { s with failedAttempts := 0, lastActivity := now })
    ∧ (∀ e, (validatePasscode m now sessionID passcode).1 = .error e →
        ∀ s', smFind (validatePasscode m now sessionID passcode).2 sessionID
            = some s' →
          s.failedAttempts ≤ s'.failedAttempts)
    ∧ (s.locked = false → now - s.created ≤ sessionTimeoutNs →
        constantTimeStringCompare s.passcode passcode = false →
        maxFailedAttempts ≤ s.failedAttempts + 1 →
        smFind (validatePasscode m now sessionID passcode).2 sessionID
          = some { s with failedAttempts := s.failedAttempts + 1, locked := true }
        ∧ (validatePasscode m now sessionID passcode).1
          = .error errSessionLocked) := by
  have hset : ∀ x, smFind (smSet m sessionID x) sessionID = some x :=
    fun x => smFind_smSet m sessionID x s hs
  refine ⟨?_, ?_, ?_, ?_⟩
  · intro hl
    rw [validatePasscode, hs]
    simp [hl]
  · intro hok
    rw [validatePasscode, hs] at hok ⊢
    by_cases hl : s.locked = true
    · simp [hl] at hok
    · by_cases hexp : now - s.created > sessionTimeoutNs
      · simp [hl, hexp] at hok
      · by_cases hc : constantTimeStringCompare s.passcode passcode = false
        · by_cases hcap : s.failedAttempts + 1 ≥ maxFailedAttempts
          · simp [hl, hexp, hc, hcap] at hok
          · simp [hl, hexp, hc, hcap] at hok
        · simp [hl, hexp, hc, hset]
  · intro e herr s' hs'
    by_cases hl : s.locked = true
    · simp [validatePasscode, hs, hl] at hs'
      subst hs'
      exact Nat.le_refl _
    · by_cases hexp : now - s.created > sessionTimeoutNs
      · simp [validatePasscode, hs, hl, hexp, smFind_smErase] at hs'
      · by_cases hc : constantTimeStringCompare s.passcode passcode = false
        · by_cases hcap : s.failedAttempts + 1 ≥ maxFailedAttempts
          · simp [validatePasscode, hs, hl, hexp, hc, hcap, hset] at hs'
            subst hs'
            exact Nat.le_succ _
          · simp [validatePasscode, hs, hl, hexp, hc, hcap, hset] at hs'
            subst hs'
            exact Nat.le_succ _
        · simp [validatePasscode, hs, hl, hexp, hc] at herr
  · intro hl hexp hc hcap
    rw [validatePasscode, hs]
    have hnx : ¬ sessionTimeoutNs < now - s.created := by omega
    constructor
    · simp [hl, hnx, hc, hcap, hset]
    · simp [hl, hnx, hc, hcap]

/-- A session whose locked flag has latched. -/
def lockedSession : Session :=
  ⟨"LOCKID", "111-222", 0, 0, 5, true, "/srv/export", true⟩

/-- A session map holding only the locked-session record. -/
def lockedMap : SessionMap := [("LOCKID", lockedSession)]

/-- C4 witness: at a concrete locked session, presenting the correct
passcode is still rejected as locked with the map unchanged. -/
theorem C4_lockout_witness :
    validatePasscode lockedMap 9 "LOCKID" "111-222"
      = (.error errSessionLocked, lockedMap) :=
  (C4_attempt_counter_monotone_and_lockout_latches lockedMap 9 "LOCKID"
    "111-222" lockedSession (by decide)).1 (by decide)

/-- C5: for a read of an existing confined file, an offset outside
[0, size] is rejected; a non-positive or overlong requested length yields
exactly min(size - offset, 10 MiB) bytes; a valid request yields the
bytes at the offset, capped at 10 MiB. -/
theorem C5_read_offset_and_length_semantics (fs : SecureFilesystem)
    (d : Disk) (p sp : String) (content : List Nat) (offset length : Int)
    (hs : sanitizePath fs d p = .ok sp)
    (hf : d.find sp = some (.file content)) :
    (offset < 0 ∨ offset > (content.length : Int) →
      fsRead fs d p offset length = .error "invalid offset")
    ∧ (0 ≤ offset → offset ≤ (content.length : Int) →
        length ≤ 0 ∨ offset + length > (content.length : Int) →
        ∃ data, fsRead fs d p offset length = .ok data
          ∧ (data.length : Int)
            = min ((content.length : Int) - offset) maxReadSize)
    ∧ (0 ≤ offset → 0 < length → offset + length ≤ (content.length : Int) →
        fsRead fs d p offset length
          = .ok ((content.drop offset.toNat).take (min length maxReadSize).toNat)
        ∧ (((content.drop offset.toNat).take
              (min length maxReadSize).toNat).length : Int) ≤ maxReadSize) := by
  have hm : maxReadSize = (10485760 : Int) := by norm_num [maxReadSize]
  refine ⟨?_, ?_, ?_⟩
  · intro h
    simp only [fsRead, bind, Except.bind, hs, hf]
    rw [if_pos h]
  · intro h1 h2 h3
    simp only [fsRead, bind, Except.bind, hs, hf]
    rw [if_neg (by omega : ¬ (offset < 0 ∨ offset > (content.length : Int)))]
    rw [if_pos h3]
    refine ⟨_, rfl, ?_⟩
    by_cases hc : (content.length : Int) - offset > maxReadSize
    · rw [if_pos hc]
      simp only [List.length_take, List.length_drop]
      rw [hm] at hc ⊢
      push_cast
      omega
    · rw [if_neg hc]
      simp only [List.length_take, List.length_drop]
      rw [hm] at hc ⊢
      push_cast
      omega
  · intro h1 h2 h3
    simp only [fsRead, bind, Except.bind, hs, hf]
    rw [if_neg (by omega : ¬ (offset < 0 ∨ offset > (content.length : Int)))]
    rw [if_neg (by omega :
      ¬ (length ≤ 0 ∨ offset + length > (content.length : Int)))]
    constructor
    · by_cases hc : length > maxReadSize
      · rw [if_pos hc, min_eq_right (by omega : maxReadSize ≤ length)]
      · rw [if_neg hc, min_eq_left (by omega : length ≤ maxReadSize)]
    · simp only [List.length_take, List.length_drop]
      rw [hm]
      push_cast
      omega

/-- C5 witness: on the concrete two-byte file, an offset beyond the size
is rejected, an overlong request is clamped to the remaining byte, and a
valid request returns the requested slice. -/
theorem C5_read_semantics_witness :
    fsRead expFs expDisk "/hello.txt" 3 1 = .error "invalid offset"
    ∧ (∃ data, fsRead expFs expDisk "/hello.txt" 1 5 = .ok data
        ∧ (data.length : Int) = min ((2 : Int) - 1) maxReadSize)
    ∧ fsRead expFs expDisk "/hello.txt" 0 2
        = .ok (([104, 105].drop (0 : Int).toNat).take
            (min 2 maxReadSize).toNat) := by
  have h := C5_read_offset_and_length_semantics expFs expDisk "/hello.txt"
    "/srv/export/hello.txt" [104, 105] 3 1 (by decide) (by decide)
  have h2 := C5_read_offset_and_length_semantics expFs expDisk "/hello.txt"
    "/srv/export/hello.txt" [104, 105] 1 5 (by decide) (by decide)
  have h3 := C5_read_offset_and_length_semantics expFs expDisk "/hello.txt"
    "/srv/export/hello.txt" [104, 105] 0 2 (by decide) (by decide)
  refine ⟨h.1 (by norm_num), ?_, (h3.2.2 (by norm_num) (by norm_num)
    (by norm_num)).1⟩
  obtain ⟨data, hd, hlen⟩ := h2.2.1 (by norm_num) (by norm_num) (by norm_num)
  exact ⟨data, hd, by simpa using hlen⟩

/-! ## Handshake claims -/

/-- Diffie-Hellman commutativity in the exponentiation model: both sides
of the exchange compute the same shared secret. -/
theorem dh_comm (a b : Nat) :
    scalarMult a (scalarBaseMult b) = scalarMult b (scalarBaseMult a) := by
  unfold scalarMult scalarBaseMult
  calc (dhG ^ b % dhP) ^ a % dhP
      = (dhG ^ b) ^ a % dhP := (Nat.pow_mod _ _ _).symm
    _ = dhG ^ (b * a) % dhP := by rw [← pow_mul]
    _ = dhG ^ (a * b) % dhP := by rw [Nat.mul_comm]
    _ = (dhG ^ a) ^ b % dhP := by rw [← pow_mul]
    _ = (dhG ^ a % dhP) ^ b % dhP := Nat.pow_mod _ _ _

/-- The transcript both peers reach after the two handshake messages:
the SHA-256 chain over the preshared key, the initiator ephemeral public
key, and the responder ephemeral public key, in that order. -/
def exchangeTranscript (psk : List Nat) (privI privR : Nat) : List Nat :=
  sha256 (sha256 (sha256 psk ++ encode32le (scalarBaseMult privI))
    ++ encode32le (scalarBaseMult privR))

/-- The initiator state after the full exchange. -/
def initiatorFinal (psk : List Nat) (privI privR : Nat) : NoiseHandshake :=
  { localPriv := privI, localPub := scalarBaseMult privI,
    remoteEphemeral := some (scalarBaseMult privR), presharedKey := psk,
    initiator := true, handshakeHash := exchangeTranscript psk privI privR }

/-- The responder state after the full exchange. -/
def responderFinal (psk : List Nat) (privI privR : Nat) : NoiseHandshake :=
  { localPriv := privR, localPub := scalarBaseMult privR,
    remoteEphemeral := some (scalarBaseMult privI), presharedKey := psk,
    initiator := false, handshakeHash := exchangeTranscript psk privI privR }

/-- C7: a pair of handshakes on the same 32-byte preshared key, where the
responder processes the initiator message, the initiator processes the
reply, and both derive transport keys, reaches identical transcripts; the
initiator send key equals the responder receive key and conversely; and
each key is the first 32 bytes of SHA256(transcript || shared secret ||
label). -/
theorem C7_transport_keys_complementary (psk : List Nat) (privI privR : Nat)
    (h : psk.length = 32) :
    handshakeExchange psk privI privR
      = some (initiatorFinal psk privI privR, responderFinal psk privI privR)
    ∧ (initiatorFinal psk privI privR).handshakeHash
      = (responderFinal psk privI privR).handshakeHash
    ∧ deriveTransportKeys (initiatorFinal psk privI privR)
      = (deriveTransportKeys (responderFinal psk privI privR)).map
          (fun q => (q.2, q.1))
    ∧ (∀ sec, computeSharedSecret privI (scalarBaseMult privR) = some sec →
        deriveTransportKeys (initiatorFinal psk privI privR)
          = some ((sha256 (exchangeTranscript psk privI privR
                ++ encode32le sec ++ i2rLabel)).take 32,
              (sha256 (exchangeTranscript psk privI privR
                ++ encode32le sec ++ r2iLabel)).take 32)) := by
  have hsec : computeSharedSecret privI (scalarBaseMult privR)
      = computeSharedSecret privR (scalarBaseMult privI) := by
    unfold computeSharedSecret
    rw [dh_comm]
  refine ⟨?_, rfl, ?_, ?_⟩
  · simp [handshakeExchange, newNoiseHandshake, h, createInitiatorMessage,
      processInitiatorMessage, createResponderMessage,
      processResponderMessage, updateHash, initiatorFinal, responderFinal,
      exchangeTranscript]
  · rcases hv : computeSharedSecret privR (scalarBaseMult privI) with _ | sec
    · simp [deriveTransportKeys, initiatorFinal, responderFinal,
        hsec.trans hv, hv]
    · simp [deriveTransportKeys, initiatorFinal, responderFinal,
        hsec.trans hv, hv, deriveKey]
  · intro sec hsec2
    simp [deriveTransportKeys, initiatorFinal, responderFinal, hsec2,
      deriveKey]

/-- A concrete 32-byte preshared key for the handshake witness. -/
def c7psk : List Nat := List.replicate 32 7

/-- C7 witness: at a concrete preshared key and concrete ephemeral
scalars, the exchange succeeds and both transcripts agree. -/
theorem C7_transport_keys_witness :
    handshakeExchange c7psk 3 5
      = some (initiatorFinal c7psk 3 5, responderFinal c7psk 3 5)
    ∧ deriveTransportKeys (initiatorFinal c7psk 3 5)
      = (deriveTransportKeys (responderFinal c7psk 3 5)).map
          (fun q => (q.2, q.1)) :=
  ⟨(C7_transport_keys_complementary c7psk 3 5 (by decide)).1,
   (C7_transport_keys_complementary c7psk 3 5 (by decide)).2.2.1⟩

/-! ## AEAD sender claims -/

/-- Decoding the big-endian 8-byte encoding recovers the value modulo
2^64. -/
theorem beDecode_be64 (n : Nat) : beDecode (be64bytes n) = n % u64 := by
  simp only [beDecode, be64bytes, Nat.shiftRight_eq_div_pow, u64,
    List.foldl_cons, List.foldl_nil]
  norm_num
  omega

/-- The big-endian 8-byte encoding is injective below 2^64. -/
theorem be64bytes_inj {a b : Nat} (ha : a < u64) (hb : b < u64)
    (h : be64bytes a = be64bytes b) : a = b := by
  have := congrArg beDecode h
  rwa [beDecode_be64, beDecode_be64, Nat.mod_eq_of_lt ha,
    Nat.mod_eq_of_lt hb] at this

/-- Running the sender over a list of inputs advances the counter by
exactly the number of Encrypt calls, as long as 2^64 is not exhausted:
the counter never wraps. -/
theorem aeadEncryptMany_nonce (sealFn : List Nat → List Nat → List Nat)
    (inputs : List (List Nat × List Nat)) :
    ∀ a : AEAD, a.nonce + inputs.length < u64 →
      (aeadEncryptMany sealFn a inputs).2.nonce = a.nonce + inputs.length := by
  induction inputs with
  | nil => intro a _; simp [aeadEncryptMany]
  | cons x rest ih =>
      intro a h
      have hlen : (x :: rest).length = rest.length + 1 := rfl
      have h1 : (a.nonce + 1) % u64 = a.nonce + 1 :=
        Nat.mod_eq_of_lt (by rw [hlen] at h; omega)
      simp only [aeadEncryptMany, aeadEncrypt]
      rw [h1]
      have := ih ⟨a.key, a.nonce + 1⟩ (by rw [hlen] at h; simpa using by omega)
      simp only at this
      rw [this, hlen]
      omega

/-- C8: the 64-bit send counter strictly increases on each Encrypt call,
incrementing before sealing, and does not wrap for any run that performs
fewer than 2^64 calls; two successive Encrypt calls produce records whose
24-byte nonces differ, with the big-endian counter in the final 8 bytes
of the nonce and the leading 16 bytes taken from the CSPRNG. -/
theorem C8_sender_counter_strictly_increases
    (sealFn : List Nat → List Nat → List Nat) (key p1 p2 r1 r2 : List Nat)
    (c : Nat) (h1 : r1.length = 16) (h2 : r2.length = 16)
    (hc : c + 2 < u64) :
    (aeadEncrypt sealFn ⟨key, c⟩ r1 p1).2.nonce = c + 1
    ∧ (aeadEncrypt sealFn (aeadEncrypt sealFn ⟨key, c⟩ r1 p1).2 r2 p2).2.nonce
      = c + 2
    ∧ (aeadEncrypt sealFn ⟨key, c⟩ r1 p1).1.take 24 = r1 ++ be64bytes (c + 1)
    ∧ (aeadEncrypt sealFn (aeadEncrypt sealFn ⟨key, c⟩ r1 p1).2 r2 p2).1.take 24
      = r2 ++ be64bytes (c + 2)
    ∧ (aeadEncrypt sealFn ⟨key, c⟩ r1 p1).1.take 24
      ≠ (aeadEncrypt sealFn (aeadEncrypt sealFn ⟨key, c⟩ r1 p1).2 r2 p2).1.take 24
    ∧ (aeadEncrypt sealFn ⟨key, c⟩ r1 p1).1
      ≠ (aeadEncrypt sealFn (aeadEncrypt sealFn ⟨key, c⟩ r1 p1).2 r2 p2).1
    ∧ (∀ (inputs : List (List Nat × List Nat)) (a : AEAD),
        a.nonce + inputs.length < u64 →
        (aeadEncryptMany sealFn a inputs).2.nonce = a.nonce + inputs.length) := by
  have hm1 : (c + 1) % u64 = c + 1 := Nat.mod_eq_of_lt (by omega)
  have hm2 : (c + 1 + 1) % u64 = c + 2 := by
    rw [Nat.mod_eq_of_lt (by omega)]
  have e1n : (aeadEncrypt sealFn ⟨key, c⟩ r1 p1).2.nonce = c + 1 := by
    simp [aeadEncrypt, hm1]
  have e1s : (aeadEncrypt sealFn ⟨key, c⟩ r1 p1).2 = ⟨key, c + 1⟩ := by
    simp [aeadEncrypt, hm1]
  have e2n : (aeadEncrypt sealFn (aeadEncrypt sealFn ⟨key, c⟩ r1 p1).2
      r2 p2).2.nonce = c + 2 := by
    rw [e1s]
    simp [aeadEncrypt, hm2]
  have t1 : (aeadEncrypt sealFn ⟨key, c⟩ r1 p1).1.take 24
      = r1 ++ be64bytes (c + 1) := by
    simp only [aeadEncrypt, hm1]
    exact List.take_left' (by simp [h1, be64bytes])
  have t2 : (aeadEncrypt sealFn (aeadEncrypt sealFn ⟨key, c⟩ r1 p1).2
      r2 p2).1.take 24 = r2 ++ be64bytes (c + 2) := by
    rw [e1s]
    simp only [aeadEncrypt, hm2]
    exact List.take_left' (by simp [h2, be64bytes])
  have tne : (aeadEncrypt sealFn ⟨key, c⟩ r1 p1).1.take 24
      ≠ (aeadEncrypt sealFn (aeadEncrypt sealFn ⟨key, c⟩ r1 p1).2
          r2 p2).1.take 24 := by
    rw [t1, t2]
    intro he
    have hpair := List.append_inj he (h1.trans h2.symm)
    have : c + 1 = c + 2 :=
      be64bytes_inj (by omega) (by omega) hpair.2
    omega
  refine ⟨e1n, e2n, t1, t2, tne, ?_, aeadEncryptMany_nonce sealFn⟩
  intro he
  exact tne (congrArg (List.take 24) he)

/-- C8 witness: at a concrete sender state with counter zero, two calls
advance the counter to one and two, the two records differ, and the first
record starts with the 16 CSPRNG bytes followed by the big-endian
counter one. -/
theorem C8_sender_counter_witness :
    (aeadEncrypt (fun _ _ => []) ⟨[], 0⟩ (List.replicate 16 0) []).2.nonce = 1
    ∧ (aeadEncrypt (fun _ _ => [])
        (aeadEncrypt (fun _ _ => []) ⟨[], 0⟩ (List.replicate 16 0) []).2
        (List.replicate 16 1) []).2.nonce = 2
    ∧ (aeadEncrypt (fun _ _ => []) ⟨[], 0⟩ (List.replicate 16 0) []).1
      ≠ (aeadEncrypt (fun _ _ => [])
          (aeadEncrypt (fun _ _ => []) ⟨[], 0⟩ (List.replicate 16 0) []).2
          (List.replicate 16 1) []).1 := by
  have h := C8_sender_counter_strictly_increases (fun _ _ => []) [] [] []
    (List.replicate 16 0) (List.replicate 16 1) 0 (by decide) (by decide)
    (by decide)
  exact ⟨h.1, h.2.1, h.2.2.2.2.2.1⟩

end Orb
